import Mathlib

/-!
Verification development for the SDNF exporter (`io_sdnf.py`).

The Python source is shallowly embedded here:
* coordinates are modelled as exact rationals (`ℚ`); the program performs no
  float-specific operations that the claims depend on, and `%f` formatting is
  modelled by `fmt6` (round to 6 decimal places, zero-padded fraction);
* the host/`bpy` objects consumed by the code (`Object.to_mesh`,
  `Mesh.transform`, `Mesh.flip_normals`, `Matrix.is_negative`,
  `Matrix.Scale`) are modelled with their documented semantics:
  `to_mesh` may fail (`Option`), `transform` applies a 4x4 affine matrix to
  every vertex, `flip_normals` reverses every face loop and leaves edges
  untouched, `is_negative` tests `det < 0`, and `Matrix.Scale(s, 4)` is the
  uniform scale `diag (s, s, s, 1)`;
* a Python `IndexError` (raised by `edge[0]` / `edge[1]` on a short edge
  list) is modelled by the `raised` flag of `WResult`, which also records the
  text written to the file before the exception escaped the `with` block.
-/

namespace SDNF

/-- A 3D point, as produced by `mathutils.Vector` coordinates. -/
structure Point3 where
  x : ℚ
  y : ℚ
  z : ℚ
deriving DecidableEq

/-- A 4x4 matrix, as `mathutils.Matrix` (row major). -/
structure Mat4 where
  m00 : ℚ
  m01 : ℚ
  m02 : ℚ
  m03 : ℚ
  m10 : ℚ
  m11 : ℚ
  m12 : ℚ
  m13 : ℚ
  m20 : ℚ
  m21 : ℚ
  m22 : ℚ
  m23 : ℚ
  m30 : ℚ
  m31 : ℚ
  m32 : ℚ
  m33 : ℚ
deriving DecidableEq

/-- Matrix product, `A @ B` in `mathutils`. -/
def Mat4.mul (A B : Mat4) : Mat4 where
  m00 := A.m00 * B.m00 + A.m01 * B.m10 + A.m02 * B.m20 + A.m03 * B.m30
  m01 := A.m00 * B.m01 + A.m01 * B.m11 + A.m02 * B.m21 + A.m03 * B.m31
  m02 := A.m00 * B.m02 + A.m01 * B.m12 + A.m02 * B.m22 + A.m03 * B.m32
  m03 := A.m00 * B.m03 + A.m01 * B.m13 + A.m02 * B.m23 + A.m03 * B.m33
  m10 := A.m10 * B.m00 + A.m11 * B.m10 + A.m12 * B.m20 + A.m13 * B.m30
  m11 := A.m10 * B.m01 + A.m11 * B.m11 + A.m12 * B.m21 + A.m13 * B.m31
  m12 := A.m10 * B.m02 + A.m11 * B.m12 + A.m12 * B.m22 + A.m13 * B.m32
  m13 := A.m10 * B.m03 + A.m11 * B.m13 + A.m12 * B.m23 + A.m13 * B.m33
  m20 := A.m20 * B.m00 + A.m21 * B.m10 + A.m22 * B.m20 + A.m23 * B.m30
  m21 := A.m20 * B.m01 + A.m21 * B.m11 + A.m22 * B.m21 + A.m23 * B.m31
  m22 := A.m20 * B.m02 + A.m21 * B.m12 + A.m22 * B.m22 + A.m23 * B.m32
  m23 := A.m20 * B.m03 + A.m21 * B.m13 + A.m22 * B.m23 + A.m23 * B.m33
  m30 := A.m30 * B.m00 + A.m31 * B.m10 + A.m32 * B.m20 + A.m33 * B.m30
  m31 := A.m30 * B.m01 + A.m31 * B.m11 + A.m32 * B.m21 + A.m33 * B.m31
  m32 := A.m30 * B.m02 + A.m31 * B.m12 + A.m32 * B.m22 + A.m33 * B.m32
  m33 := A.m30 * B.m03 + A.m31 * B.m13 + A.m32 * B.m23 + A.m33 * B.m33

/-- Apply the affine matrix to a point (homogeneous coordinate 1),
as `Mesh.transform` does per vertex. -/
def Mat4.applyPoint (M : Mat4) (p : Point3) : Point3 where
  x := M.m00 * p.x + M.m01 * p.y + M.m02 * p.z + M.m03
  y := M.m10 * p.x + M.m11 * p.y + M.m12 * p.z + M.m13
  z := M.m20 * p.x + M.m21 * p.y + M.m22 * p.z + M.m23

/-- Determinant of a 3x3 matrix given by rows. -/
def det3 (a b c d e f g h i : ℚ) : ℚ :=
  a * (e * i - f * h) - b * (d * i - f * g) + c * (d * h - e * g)

/-- Determinant of the 4x4 matrix (cofactor expansion along the first row). -/
def Mat4.det (M : Mat4) : ℚ :=
  M.m00 * det3 M.m11 M.m12 M.m13 M.m21 M.m22 M.m23 M.m31 M.m32 M.m33
    - M.m01 * det3 M.m10 M.m12 M.m13 M.m20 M.m22 M.m23 M.m30 M.m32 M.m33
    + M.m02 * det3 M.m10 M.m11 M.m13 M.m20 M.m21 M.m23 M.m30 M.m31 M.m33
    - M.m03 * det3 M.m10 M.m11 M.m12 M.m20 M.m21 M.m22 M.m30 M.m31 M.m32

/-- `mathutils.Matrix.is_negative`: the matrix is orientation-reversing. -/
def Mat4.is_negative (M : Mat4) : Bool :=
  decide (M.det < 0)

/-- `mathutils.Matrix.Scale(s, 4)`: uniform scale. -/
def matScale (s : ℚ) : Mat4 :=
  ⟨s, 0, 0, 0, 0, s, 0, 0, 0, 0, s, 0, 0, 0, 0, 1⟩

/-- The identity matrix. -/
def identityMat : Mat4 :=
  ⟨1, 0, 0, 0, 0, 1, 0, 0, 0, 0, 1, 0, 0, 0, 0, 1⟩

/-- A `bpy` evaluated mesh: vertex coordinates, face loops (vertex index
lists) and edges (vertex index pairs). -/
structure Mesh where
  vertices : List Point3
  polygons : List (List Nat)
  edges : List (Nat × Nat)
deriving DecidableEq

/-- `Mesh.transform(mat)`: apply the matrix to every vertex coordinate. -/
def Mesh.transform (m : Mesh) (M : Mat4) : Mesh :=
  { m with vertices := m.vertices.map M.applyPoint }

/-- `Mesh.flip_normals()`: reverse every face loop; edge data is untouched. -/
def Mesh.flip_normals (m : Mesh) : Mesh :=
  { m with polygons := m.polygons.map List.reverse }

/-- All vertex indices referenced by faces and edges are in range.
(Python indexing `vertices[index]` would raise on an out-of-range index;
the claims about extraction are stated for meshes satisfying this.) -/
def Mesh.wf (m : Mesh) : Prop :=
  (∀ f ∈ m.polygons, ∀ i ∈ f, i < m.vertices.length) ∧
    (∀ e ∈ m.edges, e.1 < m.vertices.length ∧ e.2 < m.vertices.length)

instance (m : Mesh) : Decidable m.wf := by
  unfold Mesh.wf; infer_instance

/-- A modifier on a scene object: only its name and the two fields the
exporter reads are relevant. -/
structure Modifier where
  name : String
  thickness : ℚ
  offset : ℚ
deriving DecidableEq

/-- A scene object as consumed by the exporter. `to_mesh` is `none` when
`Object.to_mesh()` raises `RuntimeError` or returns `None`. -/
structure Obj where
  name : String
  modifiers : List Modifier
  to_mesh : Option Mesh
  matrix_world : Mat4
deriving DecidableEq

/-- Result of `faces_from_mesh`: the dict `{"polygons": ..., "edges": ...}`. -/
structure ExtractionResult where
  polygons : List (List Point3)
  edges : List (List Point3)
deriving DecidableEq

/-- Embedding of `faces_from_mesh(ob, global_matrix)` (io_sdnf.py:239-281).
The edit-mode sync and `to_mesh_clear` calls have no bearing on the value
returned and are omitted. -/
def faces_from_mesh (ob : Obj) (global_matrix : Mat4) : ExtractionResult :=
  match ob.to_mesh with
  | none => ⟨[], []⟩
  | some mesh =>
    let mat := global_matrix.mul ob.matrix_world
    let mesh1 := mesh.transform mat
    let mesh2 := if mat.is_negative then mesh1.flip_normals else mesh1
    let vertices := mesh2.vertices
    let polygons := mesh2.polygons.map
      (fun poly => poly.map (fun i => vertices.getD i ⟨0, 0, 0⟩))
    let edges :=
      if polygons.isEmpty then
        mesh2.edges.map
          (fun e => [vertices.getD e.1 ⟨0, 0, 0⟩, vertices.getD e.2 ⟨0, 0, 0⟩])
      else []
    ⟨polygons, edges⟩

/-- The image of source vertex `i` under the composed transform: what the
extractor stores for index `i` of a well-formed mesh. -/
def transformedVertex (m : Mesh) (M : Mat4) (i : Nat) : Point3 :=
  M.applyPoint (m.vertices.getD i ⟨0, 0, 0⟩)

/-- The six characters of `k % 10 ^ 6` with leading zeros, as printf pads
the fractional part of `%f`. -/
def sixDigits (k : Nat) : List Char :=
  [Nat.digitChar (k / 100000 % 10), Nat.digitChar (k / 10000 % 10),
   Nat.digitChar (k / 1000 % 10), Nat.digitChar (k / 100 % 10),
   Nat.digitChar (k / 10 % 10), Nat.digitChar (k % 10)]

/-- Round a rational to the nearest integer, `⌊q + 1/2⌋` computed on the
numerator and denominator. -/
def roundQ (q : ℚ) : Int :=
  Int.fdiv (2 * q.num + (q.den : Int)) (2 * (q.den : Int))

/-- Fixed-point rendering of `n` millionths with exactly six fractional
digits: the text printf produces for a value that rounds to `n / 10^6`. -/
def fmt6Int (n : Int) : String :=
  let m : Nat := n.natAbs
  (if n < 0 then "-" else "") ++ toString (m / 1000000) ++ "." ++
    String.mk (sixDigits (m % 1000000))

/-- Python `"%f" % x`: fixed-point with exactly six fractional digits.
The argument is the exact value being formatted; rounding of the decimal
expansion to six places is to-nearest (the tie-breaking mode is irrelevant
to every statement below). -/
def fmt6 (q : ℚ) : String :=
  fmt6Int (roundQ (q * 1000000))

/-- Number of characters after the last `.` of a string (its fractional
field width, when the string is a fixed-point numeral). -/
def fracLen (s : String) : Nat :=
  (s.data.reverse.takeWhile (fun c => c != '.')).length

/-- Concatenation of a list of strings, in order. -/
def concatAll : List String → String
  | [] => ""
  | s :: rest => s ++ concatAll rest

/-- One entry of the `polygons` list built in `ExportSDNF.execute`
(io_sdnf.py:110-118). -/
structure PolyItem where
  polygon : List Point3
  thickness : ℚ
  offset : ℚ
  name : String
deriving DecidableEq

/-- One entry of the `edges` list built in `ExportSDNF.execute`
(io_sdnf.py:119-126). `sect` is the dict key `"section"` (a Lean keyword). -/
structure EdgeItem where
  edge : List Point3
  sect : String
  name : String
deriving DecidableEq

/-- The `connect_point` computation of `write_sdnf` (io_sdnf.py:366-370). -/
def connect_point (offset : ℚ) : Int :=
  if offset > 99 / 100 then -1
  else if offset < -(99 / 100) then 1
  else 0

/-- The orientation-vector branch of `write_sdnf` (io_sdnf.py:329-332),
without the trailing separator space. -/
def orientationVector (e0 e1 : Point3) : String :=
  if e0.x = e1.x ∧ e0.y = e1.y then "1.000000 0.000000 0.000000"
  else "0.000000 0.000000 1.000000"

/-- `fw("%f %f %f " % vert[:])` for an edge endpoint (io_sdnf.py:334). -/
def edgeVertexChunk (v : Point3) : String :=
  fmt6 v.x ++ " " ++ fmt6 v.y ++ " " ++ fmt6 v.z ++ " "

/-- `fw("%f %f %f\n" % vert[:])` for a polygon vertex (io_sdnf.py:379). -/
def vertexLine (v : Point3) : String :=
  fmt6 v.x ++ " " ++ fmt6 v.y ++ " " ++ fmt6 v.z ++ "\n"

/-- The Title packet written by `write_sdnf` (io_sdnf.py:294-302). -/
def titlePacket : String :=
  "Packet 00\n" ++
  "\"\"\n" ++
  "\"My Engineering Company\"\n" ++
  "\"My Client\"\n" ++
  "\"My Structure\"\n" ++
  "\"10/02/13\" \"16:27:18\"\n" ++
  "1 \"io_sdnf.py\"\n" ++
  "\"My Design Code\"\n" ++
  "0\n"

/-- Text produced by a run of the writer. `out` is everything passed to
`fw` before the run finished or a Python `IndexError` escaped; `raised`
records whether such an exception was raised. -/
structure WResult where
  out : String
  raised : Bool
deriving DecidableEq

/-- One iteration of the edge loop of `write_sdnf` (io_sdnf.py:313-347).
The member and section lines are written before `edge[0]` / `edge[1]` are
evaluated, so an edge with fewer than two endpoints leaves those two lines
in the file and raises. -/
def edgeRecord (idx : Nat) (item : EdgeItem) : WResult :=
  let line1 := toString idx ++ " 5 0 0 \"beam\" \"\" 0\n"
  let line2 := "\"" ++ item.sect ++ "\" \"S355\" 0.000000 0 0\n"
  match item.edge with
  | e0 :: e1 :: _ =>
    ⟨line1 ++ line2 ++
      orientationVector e0 e1 ++ " " ++
      concatAll (item.edge.map edgeVertexChunk) ++
      "0.000000 0.000000\n" ++
      "0.000000 0.000000\n" ++
      "0.000000 0.000000 0.000000 0.000000 0.000000 0.000000\n" ++
      "0 0 0 0 0 0 0 0 0 0 0 0\n", false⟩
  | _ => ⟨line1 ++ line2, true⟩

/-- The edge loop of `write_sdnf`, starting from member id `idx`; stops at
the first record that raises. -/
def writeEdges : Nat → List EdgeItem → WResult
  | _, [] => ⟨"", false⟩
  | idx, item :: rest =>
    let r := edgeRecord idx item
    if r.raised then r
    else
      let r2 := writeEdges (idx + 1) rest
      ⟨r.out ++ r2.out, r2.raised⟩

/-- One iteration of the plate loop of `write_sdnf` (io_sdnf.py:358-380).
Note the thickness field is `str("%f" % thickness)`, i.e. `%f`. -/
def plateRecord (idx : Nat) (item : PolyItem) : String :=
  toString idx ++ " " ++ toString (connect_point item.offset) ++
    " 0 0 \"plate\"\n" ++
  "\"\" \"S355\" " ++ fmt6 item.thickness ++ " " ++
    toString item.polygon.length ++ "\n" ++
  concatAll (item.polygon.map vertexLine)

/-- The plate loop of `write_sdnf`, starting from member id `idx`. -/
def writePlates : Nat → List PolyItem → String
  | _, [] => ""
  | idx, item :: rest => plateRecord idx item ++ writePlates (idx + 1) rest

/-- Embedding of `write_sdnf(filepath, polygons, edges)` (io_sdnf.py:284-380).
The file path plays no role in the text written; the returned `WResult` is
the file's content (and whether an `IndexError` escaped). -/
def write_sdnf (polygons : List PolyItem) (edges : List EdgeItem) : WResult :=
  let head := titlePacket ++
    "Packet 10\n" ++
    "\"meters\" " ++ toString edges.length ++ "\n"
  let er := writeEdges 100001 edges
  if er.raised then ⟨head ++ er.out, true⟩
  else
    ⟨head ++ er.out ++
      "Packet 20\n" ++
      "\"meters\" \"meters\" " ++ toString polygons.length ++ "\n" ++
      writePlates 200001 polygons, false⟩

/-- One iteration of the modifier scan of `ExportSDNF.execute`
(io_sdnf.py:103-106): a modifier named `"Solidify"` overwrites the pair. -/
def solidifyStep (acc : ℚ × ℚ) (itm : Modifier) : ℚ × ℚ :=
  if itm.name = "Solidify" then (itm.thickness, itm.offset) else acc

/-- The `(thickness, offset)` pair computed for one object by
`ExportSDNF.execute` (io_sdnf.py:101-106): defaults `(0.008, 0.0)`,
overwritten by each modifier named `"Solidify"` in stack order. -/
def classifyAttrs (mods : List Modifier) : ℚ × ℚ :=
  mods.foldl solidifyStep (8 / 1000, 0)

/-- One iteration of the collection loop of `ExportSDNF.execute`
(io_sdnf.py:99-126): classify the object, extract its geometry, and append
the polygon and edge items. -/
def executeStep (global_scale : ℚ) (acc : List PolyItem × List EdgeItem)
    (ob : Obj) : List PolyItem × List EdgeItem :=
  let ta := classifyAttrs ob.modifiers
  let dat := faces_from_mesh ob (matScale global_scale)
  (acc.1 ++ dat.polygons.map (fun poly => ⟨poly, ta.1, ta.2, ob.name⟩),
   acc.2 ++ dat.edges.map (fun e => ⟨e, "UC152x152x23", ob.name⟩))

/-- The collection loop of `ExportSDNF.execute` (io_sdnf.py:97-126): builds
the `polygons` and `edges` lists handed to `write_sdnf`. -/
def executeCore (global_scale : ℚ) (objs : List Obj) :
    List PolyItem × List EdgeItem :=
  objs.foldl (executeStep global_scale) ([], [])

/-- A well-formed sample edge item (a vertical edge). -/
def sampleEdgeItem : EdgeItem :=
  ⟨[⟨0, 0, 0⟩, ⟨0, 0, 5⟩], "UC152x152x23", "col"⟩

/-- A well-formed sample plate item (a triangle). -/
def samplePlateItem : PolyItem :=
  ⟨[⟨0, 0, 0⟩, ⟨1, 0, 0⟩, ⟨0, 1, 0⟩], 8 / 1000, 0, "tri"⟩

/-- A malformed plate item: only two vertices in the loop. -/
def badPlateItem : PolyItem :=
  ⟨[⟨0, 0, 0⟩, ⟨1, 0, 0⟩], 8 / 1000, 0, "degenerate"⟩

/-- A malformed edge item: a single endpoint. -/
def shortEdgeItem : EdgeItem :=
  ⟨[⟨0, 0, 0⟩], "UC152x152x23", "stub"⟩

/-- A sample mesh: one triangle face and one edge. -/
def sampleMesh : Mesh :=
  ⟨[⟨0, 0, 0⟩, ⟨1, 0, 0⟩, ⟨0, 1, 0⟩], [[0, 1, 2]], [(0, 1)]⟩

/-- A sample face-bearing object with identity world matrix. -/
def sampleObj : Obj :=
  ⟨"tri", [], some sampleMesh, identityMat⟩

/-- The sample object placed under a mirror (scale `(-1, 1, 1)`) world
matrix. -/
def mirroredObj : Obj :=
  ⟨"mir", [], some sampleMesh,
    ⟨-1, 0, 0, 0, 0, 1, 0, 0, 0, 0, 1, 0, 0, 0, 0, 1⟩⟩

/-! ### Evaluation lemmas for the numeric formatter -/

lemma roundQ_intCast (n : ℤ) : roundQ (n : ℚ) = n := by
  unfold roundQ
  simp only [Rat.num_intCast, Rat.den_intCast, Nat.cast_one, mul_one]
  rw [Int.fdiv_eq_ediv _ (by norm_num)]
  omega

lemma fmt6_eval (q : ℚ) (n : ℤ) (h : q * 1000000 = (n : ℚ)) :
    fmt6 q = fmt6Int n := by
  unfold fmt6
  rw [h, roundQ_intCast]

lemma fmt6_zero : fmt6 0 = "0.000000" := by
  rw [fmt6_eval 0 0 (by norm_num)]; decide

lemma fmt6_one : fmt6 1 = "1.000000" := by
  rw [fmt6_eval 1 1000000 (by norm_num)]; decide

lemma fmt6_five : fmt6 5 = "5.000000" := by
  rw [fmt6_eval 5 5000000 (by norm_num)]; decide

lemma fmt6_thickness : fmt6 (8 / 1000) = "0.008000" := by
  rw [fmt6_eval (8 / 1000) 8000 (by norm_num)]; decide

lemma takeWhile_append_stop (p : Char → Bool) :
    ∀ (l1 : List Char) (x : Char) (l2 : List Char),
      (∀ c ∈ l1, p c = true) → p x = false →
      (l1 ++ x :: l2).takeWhile p = l1 := by
  intro l1
  induction l1 with
  | nil => intro x l2 _ hx; simp [List.takeWhile_cons, hx]
  | cons a t ih =>
    intro x l2 h hx
    have ha : p a = true := h a (by simp)
    simp only [List.cons_append, List.takeWhile_cons, ha, if_true]
    rw [ih x l2 (fun c hc => h c (by simp [hc])) hx]

lemma digitChar_mod_ne_dot (k : Nat) : (Nat.digitChar (k % 10) != '.') = true := by
  have h : k % 10 < 10 := Nat.mod_lt _ (by norm_num)
  set d := k % 10 with hd
  interval_cases d <;> decide

lemma fracLen_append_mk (a : String) (ds : List Char)
    (h : ∀ c ∈ ds, (c != '.') = true) :
    fracLen (a ++ "." ++ String.mk ds) = ds.length := by
  unfold fracLen
  have h1 : (a ++ "." ++ String.mk ds).data = a.data ++ '.' :: ds := by
    have hdot : ("." : String).data = ['.'] := rfl
    have hmk : (String.mk ds).data = ds := rfl
    simp [String.data_append, hdot, hmk]
  rw [h1, List.reverse_append, List.reverse_cons, List.append_assoc,
    List.singleton_append]
  rw [takeWhile_append_stop _ ds.reverse '.' a.data.reverse
      (fun c hc => h c (List.mem_reverse.mp hc)) (by decide)]
  exact List.length_reverse ds

lemma fracLen_fmt6Int (n : ℤ) : fracLen (fmt6Int n) = 6 := by
  show fracLen ((if n < 0 then "-" else "") ++ toString (n.natAbs / 1000000)
      ++ "." ++ String.mk (sixDigits (n.natAbs % 1000000))) = 6
  rw [fracLen_append_mk _ _ ?h]
  · simp [sixDigits]
  case h =>
    intro c hc
    simp only [sixDigits, List.mem_cons, List.not_mem_nil, or_false] at hc
    rcases hc with h | h | h | h | h | h <;>
      (subst h; exact digitChar_mod_ne_dot _)

/-- Every string produced by `fmt6` has exactly six characters after its
last `.`. -/
lemma fracLen_fmt6 (q : ℚ) : fracLen (fmt6 q) = 6 :=
  fracLen_fmt6Int _

/-! ### Lemmas about the extractor -/

lemma getD_map_of_lt {α β : Type} (g : α → β) (l : List α) (i : Nat)
    (d : β) (d2 : α) (h : i < l.length) :
    (l.map g).getD i d = g (l.getD i d2) := by
  rw [List.getD_eq_getElem?_getD, List.getD_eq_getElem?_getD]
  rw [List.getElem?_eq_getElem (by simpa using h), List.getElem?_eq_getElem h]
  simp

/-- Normal form of `faces_from_mesh` on an object whose mesh conversion
succeeds. -/
lemma faces_from_mesh_eq (ob : Obj) (gm : Mat4) (m : Mesh)
    (hm : ob.to_mesh = some m) :
    faces_from_mesh ob gm =
      { polygons :=
          (if (gm.mul ob.matrix_world).is_negative
            then m.polygons.map List.reverse else m.polygons).map
            (fun poly => poly.map (fun i =>
              (m.vertices.map (gm.mul ob.matrix_world).applyPoint).getD i
                ⟨0, 0, 0⟩)),
        edges :=
          if ((if (gm.mul ob.matrix_world).is_negative
              then m.polygons.map List.reverse else m.polygons).map
              (fun poly => poly.map (fun i =>
                (m.vertices.map (gm.mul ob.matrix_world).applyPoint).getD i
                  ⟨0, 0, 0⟩))).isEmpty
          then m.edges.map (fun e =>
            [(m.vertices.map (gm.mul ob.matrix_world).applyPoint).getD e.1
                ⟨0, 0, 0⟩,
             (m.vertices.map (gm.mul ob.matrix_world).applyPoint).getD e.2
                ⟨0, 0, 0⟩])
          else [] } := by
  cases hb : (gm.mul ob.matrix_world).is_negative <;>
    simp [faces_from_mesh, hm, hb, Mesh.transform, Mesh.flip_normals]

lemma extraction_polygons_nil_iff (ob : Obj) (gm : Mat4) (m : Mesh)
    (hm : ob.to_mesh = some m) :
    (faces_from_mesh ob gm).polygons = [] ↔ m.polygons = [] := by
  rw [faces_from_mesh_eq ob gm m hm]
  cases hb : (gm.mul ob.matrix_world).is_negative <;> simp [hb]

lemma extraction_edges_nil (ob : Obj) (gm : Mat4) (m : Mesh)
    (hm : ob.to_mesh = some m) (hp : m.polygons ≠ []) :
    (faces_from_mesh ob gm).edges = [] := by
  rw [faces_from_mesh_eq ob gm m hm]
  cases hb : (gm.mul ob.matrix_world).is_negative <;>
    simp [hb, List.isEmpty_iff, hp]

lemma extraction_edges_length (ob : Obj) (gm : Mat4) (m : Mesh)
    (hm : ob.to_mesh = some m) (hp : m.polygons = []) :
    (faces_from_mesh ob gm).edges.length = m.edges.length := by
  rw [faces_from_mesh_eq ob gm m hm]
  cases hb : (gm.mul ob.matrix_world).is_negative <;>
    simp [hb, List.isEmpty_iff, hp]

/-! ### Lemmas about the writer loops -/

lemma edgeRecord_raised_iff (idx : Nat) (item : EdgeItem) :
    (edgeRecord idx item).raised = true ↔ item.edge.length < 2 := by
  rcases item with ⟨e, s, n⟩
  match e with
  | [] => simp [edgeRecord]
  | [a] => simp [edgeRecord]
  | a :: b :: t => simp [edgeRecord]

lemma writeEdges_eq (k : Nat) (items : List EdgeItem)
    (h : ∀ e ∈ items, 2 ≤ e.edge.length) :
    writeEdges k items =
      ⟨concatAll (List.zipWith (fun i it => (edgeRecord i it).out)
          (List.range' k items.length) items), false⟩ := by
  induction items generalizing k with
  | nil => simp [writeEdges, concatAll]
  | cons item rest ih =>
    have h1 : (edgeRecord k item).raised = false := by
      have h2 := h item (by simp)
      have h3 := (edgeRecord_raised_iff k item).not.mpr (by omega)
      exact Bool.not_eq_true _ |>.mp h3
    rw [List.length_cons, List.range'_succ]
    simp only [writeEdges, h1, Bool.false_eq_true, if_false,
      List.zipWith_cons_cons, concatAll]
    rw [ih (k + 1) (fun e he => h e (by simp [he]))]

lemma writePlates_eq (k : Nat) (items : List PolyItem) :
    writePlates k items =
      concatAll (List.zipWith plateRecord (List.range' k items.length) items) := by
  induction items generalizing k with
  | nil => simp [writePlates, concatAll]
  | cons item rest ih =>
    rw [List.length_cons, List.range'_succ]
    simp only [writePlates, List.zipWith_cons_cons, concatAll]
    rw [ih (k + 1)]

lemma writeEdges_raised_of_short (k : Nat) (items : List EdgeItem)
    (h : ∃ e ∈ items, e.edge.length < 2) :
    (writeEdges k items).raised = true := by
  induction items generalizing k with
  | nil => simp at h
  | cons item rest ih =>
    by_cases h1 : (edgeRecord k item).raised = true
    · simp [writeEdges, h1]
    · have h2 : (edgeRecord k item).raised = false := by
        exact Bool.not_eq_true _ |>.mp h1
      simp only [writeEdges, h2, Bool.false_eq_true, if_false]
      apply ih (k + 1)
      rcases h with ⟨e, he, hlen⟩
      rcases List.mem_cons.mp he with rfl | hmem
      · exact absurd ((edgeRecord_raised_iff k e).mpr hlen) h1
      · exact ⟨e, hmem, hlen⟩

lemma writeEdges_ok_of_wf (k : Nat) (items : List EdgeItem)
    (h : ∀ e ∈ items, 2 ≤ e.edge.length) :
    (writeEdges k items).raised = false := by
  rw [writeEdges_eq k items h]

/-! ### Concrete evaluations used by witnesses and counterexamples -/

lemma connect_point_zero : connect_point 0 = 0 := by
  unfold connect_point
  rw [if_neg (by norm_num), if_neg (by norm_num)]

lemma vertexLine_000 : vertexLine ⟨0, 0, 0⟩ = "0.000000 0.000000 0.000000\n" := by
  show fmt6 0 ++ " " ++ fmt6 0 ++ " " ++ fmt6 0 ++ "\n" = _
  rw [fmt6_zero]; decide

lemma vertexLine_100 : vertexLine ⟨1, 0, 0⟩ = "1.000000 0.000000 0.000000\n" := by
  show fmt6 1 ++ " " ++ fmt6 0 ++ " " ++ fmt6 0 ++ "\n" = _
  rw [fmt6_zero, fmt6_one]; decide

lemma vertexLine_010 : vertexLine ⟨0, 1, 0⟩ = "0.000000 1.000000 0.000000\n" := by
  show fmt6 0 ++ " " ++ fmt6 1 ++ " " ++ fmt6 0 ++ "\n" = _
  rw [fmt6_zero, fmt6_one]; decide

/-! ### Lemmas about the modifier scan and the collection loop -/

lemma foldl_solidify_none (mods : List Modifier) (acc : ℚ × ℚ)
    (h : ∀ m ∈ mods, m.name ≠ "Solidify") :
    mods.foldl solidifyStep acc = acc := by
  induction mods generalizing acc with
  | nil => rfl
  | cons a t ih =>
    have ha : a.name ≠ "Solidify" := h a (by simp)
    simp only [List.foldl_cons, solidifyStep, if_neg ha]
    exact ih acc (fun m hm => h m (by simp [hm]))

lemma foldl_solidify_fixed (mo : Modifier) :
    ∀ mods : List Modifier, (∀ m ∈ mods, m.name = "Solidify" → m = mo) →
      mods.foldl solidifyStep (mo.thickness, mo.offset)
        = (mo.thickness, mo.offset) := by
  intro mods
  induction mods with
  | nil => intro _; rfl
  | cons a t ih =>
    intro h
    by_cases ha : a.name = "Solidify"
    · have hamo : a = mo := h a (by simp) ha
      subst hamo
      simp only [List.foldl_cons, solidifyStep, if_pos ha]
      exact ih (fun m hm hn => h m (by simp [hm]) hn)
    · simp only [List.foldl_cons, solidifyStep, if_neg ha]
      exact ih (fun m hm hn => h m (by simp [hm]) hn)

lemma foldl_solidify_mem (mo : Modifier) :
    ∀ (mods : List Modifier) (acc : ℚ × ℚ), mo ∈ mods →
      mo.name = "Solidify" →
      (∀ m ∈ mods, m.name = "Solidify" → m = mo) →
      mods.foldl solidifyStep acc = (mo.thickness, mo.offset) := by
  intro mods
  induction mods with
  | nil => intro acc h; simp at h
  | cons a t ih =>
    intro acc hmem hname huniq
    by_cases ha : a.name = "Solidify"
    · have hamo : a = mo := huniq a (by simp) ha
      subst hamo
      simp only [List.foldl_cons, solidifyStep, if_pos ha]
      exact foldl_solidify_fixed a t (fun m hm hn => huniq m (by simp [hm]) hn)
    · have hmt : mo ∈ t := by
        rcases List.mem_cons.mp hmem with rfl | h2
        · exact absurd hname ha
        · exact h2
      simp only [List.foldl_cons, solidifyStep, if_neg ha]
      exact ih acc hmt hname (fun m hm hn => huniq m (by simp [hm]) hn)

lemma executeStep_sect (gs : ℚ) (acc : List PolyItem × List EdgeItem)
    (ob : Obj) (it : EdgeItem) (h : it ∈ (executeStep gs acc ob).2) :
    it ∈ acc.2 ∨ it.sect = "UC152x152x23" := by
  simp only [executeStep] at h
  rcases List.mem_append.mp h with h1 | h1
  · exact Or.inl h1
  · right
    rcases List.mem_map.mp h1 with ⟨e, _, rfl⟩
    rfl

lemma foldl_executeStep_sect (gs : ℚ) :
    ∀ (objs : List Obj) (acc : List PolyItem × List EdgeItem),
      (∀ it ∈ acc.2, it.sect = "UC152x152x23") →
      ∀ it ∈ (objs.foldl (executeStep gs) acc).2, it.sect = "UC152x152x23" := by
  intro objs
  induction objs with
  | nil => intro acc h; exact h
  | cons ob t ih =>
    intro acc h it hmem
    simp only [List.foldl_cons] at hmem
    refine ih (executeStep gs acc ob) ?_ it hmem
    intro it2 h2
    rcases executeStep_sect gs acc ob it2 h2 with h3 | h3
    · exact h it2 h3
    · exact h3

/-! ### Claim theorems -/

/-- Claim C4: the connect-point code written for a polygon record is derived
from its offset as: `offset > 0.99` gives `-1`, `offset < -0.99` gives `+1`,
and every offset in `[-0.99, 0.99]` gives `0`; in particular `1.0 ↦ -1`,
`-1.0 ↦ +1`, `0.0 ↦ 0` and `0.5 ↦ 0`. -/
theorem connect_point_mapping (offset : ℚ) :
    (offset > 99 / 100 → connect_point offset = -1) ∧
    (offset < -(99 / 100) → connect_point offset = 1) ∧
    (-(99 / 100) ≤ offset → offset ≤ 99 / 100 → connect_point offset = 0) ∧
    connect_point 1 = -1 ∧ connect_point (-1) = 1 ∧
    connect_point 0 = 0 ∧ connect_point (1 / 2) = 0 := by
  refine ⟨?_, ?_, ?_, ?_, ?_, ?_, ?_⟩
  · intro h; unfold connect_point; rw [if_pos h]
  · intro h
    unfold connect_point
    rw [if_neg (by linarith), if_pos h]
  · intro h1 h2
    unfold connect_point
    rw [if_neg (by linarith), if_neg (by linarith)]
  · unfold connect_point; rw [if_pos (by norm_num)]
  · unfold connect_point; rw [if_neg (by norm_num), if_pos (by norm_num)]
  · unfold connect_point; rw [if_neg (by norm_num), if_neg (by norm_num)]
  · unfold connect_point; rw [if_neg (by norm_num), if_neg (by norm_num)]

/-- Witness for C4 at the four concrete offsets of the claim. -/
theorem connect_point_mapping_witness :
    connect_point 1 = -1 ∧ connect_point (-1) = 1 ∧
    connect_point 0 = 0 ∧ connect_point (1 / 2) = 0 :=
  ⟨(connect_point_mapping 1).1 (by norm_num),
   (connect_point_mapping (-1)).2.1 (by norm_num),
   (connect_point_mapping 0).2.2.1 (by norm_num) (by norm_num),
   (connect_point_mapping (1 / 2)).2.2.1 (by norm_num) (by norm_num)⟩

/-- Claim C5 counterexample: the Title packet emitted by `write_sdnf` has
9 line-feed-terminated lines (`Packet 00`, `""`, firm, client, structure,
date/time, issue, design code, `0`), not 8 as claimed. -/
theorem title_packet_nine_lines :
    titlePacket.data.count '\n' = 9 ∧ (9 : Nat) ≠ 8 := by
  exact ⟨by decide, by decide⟩

/-- Claim C5 (amended: 9 lines, not 8): every export writes the Title
packet first — the output starts with the fixed `titlePacket` text — and
that packet consists of exactly 9 lines. -/
theorem title_packet_first (p : List PolyItem) (e : List EdgeItem) :
    (∃ rest, (write_sdnf p e).out = titlePacket ++ rest) ∧
    titlePacket.data.count '\n' = 9 := by
  constructor
  · cases hr : (writeEdges 100001 e).raised
    · refine ⟨"Packet 10\n\"meters\" " ++ (toString e.length ++ ("\n" ++
        ((writeEdges 100001 e).out ++ ("Packet 20\n\"meters\" \"meters\" " ++
        (toString p.length ++ ("\n" ++ writePlates 200001 p)))))), ?_⟩
      simp [write_sdnf, hr, String.append_assoc]
    · refine ⟨"Packet 10\n\"meters\" " ++ (toString e.length ++ ("\n" ++
        (writeEdges 100001 e).out)), ?_⟩
      simp [write_sdnf, hr, String.append_assoc]
  · decide

/-- Claim C7: the orientation vector of an edge record is
`1.000000 0.000000 0.000000` exactly when the two endpoints have equal X
and equal Y coordinates, and `0.000000 0.000000 1.000000` otherwise; the
two endpoint pairs named by the claim produce those two vectors. -/
theorem orientation_vector_rule (e0 e1 : Point3) :
    ((e0.x = e1.x ∧ e0.y = e1.y) →
      orientationVector e0 e1 = "1.000000 0.000000 0.000000") ∧
    (¬(e0.x = e1.x ∧ e0.y = e1.y) →
      orientationVector e0 e1 = "0.000000 0.000000 1.000000") ∧
    orientationVector ⟨0, 0, 0⟩ ⟨0, 0, 5⟩ = "1.000000 0.000000 0.000000" ∧
    orientationVector ⟨0, 0, 0⟩ ⟨5, 0, 0⟩ = "0.000000 0.000000 1.000000" := by
  refine ⟨?_, ?_, by decide, by decide⟩
  · intro h; unfold orientationVector; rw [if_pos h]
  · intro h; unfold orientationVector; rw [if_neg h]

/-- Witness for C7 at the two concrete endpoint pairs of the claim. -/
theorem orientation_vector_rule_witness :
    orientationVector ⟨0, 0, 0⟩ ⟨0, 0, 5⟩ = "1.000000 0.000000 0.000000" ∧
    orientationVector ⟨0, 0, 0⟩ ⟨5, 0, 0⟩ = "0.000000 0.000000 1.000000" :=
  ⟨(orientation_vector_rule ⟨0, 0, 0⟩ ⟨0, 0, 5⟩).1 (by decide),
   (orientation_vector_rule ⟨0, 0, 0⟩ ⟨5, 0, 0⟩).2.1 (by decide)⟩

/-- Claim C3: when the composed transform is orientation-reversing
(determinant < 0) every output polygon is the full reversal of its source
face's winding, with transformed coordinates; with a non-negative
determinant the source winding is kept; and the extracted edges do not
depend on the orientation test. -/
theorem orientation_winding (ob : Obj) (gm : Mat4) (m : Mesh)
    (hm : ob.to_mesh = some m) (hwf : m.wf) :
    ((gm.mul ob.matrix_world).det < 0 →
      (faces_from_mesh ob gm).polygons
        = m.polygons.map (fun f =>
            (f.map (transformedVertex m (gm.mul ob.matrix_world))).reverse)) ∧
    (0 ≤ (gm.mul ob.matrix_world).det →
      (faces_from_mesh ob gm).polygons
        = m.polygons.map (fun f =>
            f.map (transformedVertex m (gm.mul ob.matrix_world)))) ∧
    ((faces_from_mesh ob gm).edges
      = if m.polygons.isEmpty
        then m.edges.map (fun e =>
          [transformedVertex m (gm.mul ob.matrix_world) e.1,
           transformedVertex m (gm.mul ob.matrix_world) e.2])
        else []) := by
  have hpt : ∀ poly ∈ m.polygons,
      poly.map (fun i =>
        (m.vertices.map (gm.mul ob.matrix_world).applyPoint).getD i ⟨0, 0, 0⟩)
        = poly.map (transformedVertex m (gm.mul ob.matrix_world)) := by
    intro poly hpoly
    apply List.map_congr_left
    intro i hi
    exact getD_map_of_lt (gm.mul ob.matrix_world).applyPoint m.vertices i
      ⟨0, 0, 0⟩ ⟨0, 0, 0⟩ (hwf.1 poly hpoly i hi)
  refine ⟨?_, ?_, ?_⟩
  · intro hdet
    have hb : (gm.mul ob.matrix_world).is_negative = true := decide_eq_true hdet
    rw [faces_from_mesh_eq ob gm m hm]
    simp only [hb, if_true, List.map_map]
    apply List.map_congr_left
    intro f hf
    simp only [Function.comp]
    rw [List.map_reverse, hpt f hf]
  · intro hdet
    have hb : (gm.mul ob.matrix_world).is_negative = false :=
      decide_eq_false (not_lt.mpr hdet)
    rw [faces_from_mesh_eq ob gm m hm]
    simp only [hb, Bool.false_eq_true, if_false]
    exact List.map_congr_left hpt
  · rw [faces_from_mesh_eq ob gm m hm]
    by_cases hp : m.polygons = []
    · cases hb : (gm.mul ob.matrix_world).is_negative <;>
        · simp only [hb, Bool.false_eq_true, if_false, if_true, hp,
            List.map_nil, List.isEmpty_nil, List.isEmpty_iff, if_pos]
          apply List.map_congr_left
          intro e he
          rw [getD_map_of_lt (gm.mul ob.matrix_world).applyPoint m.vertices e.1
                ⟨0, 0, 0⟩ ⟨0, 0, 0⟩ (hwf.2 e he).1,
              getD_map_of_lt (gm.mul ob.matrix_world).applyPoint m.vertices e.2
                ⟨0, 0, 0⟩ ⟨0, 0, 0⟩ (hwf.2 e he).2]
          rfl
    · cases hb : (gm.mul ob.matrix_world).is_negative <;>
        simp [hb, List.isEmpty_iff, hp]

/-- Witness for C3: the mirror matrix `scale (-1, 1, 1)` has negative
determinant and reverses the sample triangle's winding. -/
theorem orientation_winding_witness :
    sampleMesh.wf ∧
    (identityMat.mul mirroredObj.matrix_world).det < 0 ∧
    (faces_from_mesh mirroredObj identityMat).polygons
      = sampleMesh.polygons.map (fun f =>
          (f.map (transformedVertex sampleMesh
            (identityMat.mul mirroredObj.matrix_world))).reverse) := by
  have hdet : (identityMat.mul mirroredObj.matrix_world).det < 0 := by
    norm_num [Mat4.mul, Mat4.det, det3, identityMat, mirroredObj]
  exact ⟨by decide, hdet,
    (orientation_winding mirroredObj identityMat sampleMesh rfl
      (by decide)).1 hdet⟩

/-- Claim C2: for every mesh source, extraction satisfies face/edge
exclusivity — at most one of the two returned sequences is non-empty; a
mesh with at least one face yields polygons and an empty edge list; a mesh
with no faces yields no polygons and as many edges as the source mesh. -/
theorem extraction_exclusivity (ob : Obj) (gm : Mat4) :
    ((faces_from_mesh ob gm).polygons = [] ∨
      (faces_from_mesh ob gm).edges = []) ∧
    (∀ m, ob.to_mesh = some m →
      (m.polygons ≠ [] →
        (faces_from_mesh ob gm).polygons ≠ [] ∧
          (faces_from_mesh ob gm).edges = []) ∧
      (m.polygons = [] →
        (faces_from_mesh ob gm).polygons = [] ∧
          (faces_from_mesh ob gm).edges.length = m.edges.length)) := by
  constructor
  · cases hm : ob.to_mesh with
    | none => left; simp [faces_from_mesh, hm]
    | some m =>
      by_cases hp : m.polygons = []
      · left; exact (extraction_polygons_nil_iff ob gm m hm).mpr hp
      · right; exact extraction_edges_nil ob gm m hm hp
  · intro m hm
    constructor
    · intro hp
      refine ⟨?_, extraction_edges_nil ob gm m hm hp⟩
      intro hnil
      exact hp ((extraction_polygons_nil_iff ob gm m hm).mp hnil)
    · intro hp
      exact ⟨(extraction_polygons_nil_iff ob gm m hm).mpr hp,
        extraction_edges_length ob gm m hm hp⟩

/-- Witness for C2: the sample triangle object has a face, so its edge list
is dropped; an edge-only copy of it keeps both its edges. -/
theorem extraction_exclusivity_witness :
    ((faces_from_mesh sampleObj identityMat).polygons ≠ [] ∧
      (faces_from_mesh sampleObj identityMat).edges = []) ∧
    ((faces_from_mesh (Obj.mk "wire" [] (some (Mesh.mk sampleMesh.vertices []
        sampleMesh.edges)) identityMat) identityMat).polygons = [] ∧
      (faces_from_mesh (Obj.mk "wire" [] (some (Mesh.mk sampleMesh.vertices []
        sampleMesh.edges)) identityMat) identityMat).edges.length
        = (Mesh.mk sampleMesh.vertices [] sampleMesh.edges).edges.length) :=
  ⟨((extraction_exclusivity sampleObj identityMat).2 sampleMesh rfl).1
      (by decide),
   ((extraction_exclusivity (Obj.mk "wire" [] (some (Mesh.mk
        sampleMesh.vertices [] sampleMesh.edges)) identityMat)
      identityMat).2 (Mesh.mk sampleMesh.vertices [] sampleMesh.edges)
      rfl).2 rfl⟩

/-- Claim C1 counterexample: with 100001 edges and one polygon the claimed
disjointness of the two member-id ranges fails — the id range of the edge
packet (100001 upward, one id per input edge) then contains 200001, which
is also the first plate member id. -/
theorem memberId_ranges_overlap :
    (200001 ∈ List.range' 100001
      (List.replicate 100001 sampleEdgeItem : List EdgeItem).length) ∧
    (200001 ∈ List.range' 200001
      ([samplePlateItem] : List PolyItem).length) := by
  constructor
  · rw [List.length_replicate]
    exact List.mem_range'.mpr ⟨100000, by omega, by omega⟩
  · simp [List.mem_range']

/-- Claim C1 (amended: the two ranges are disjoint provided there are at
most 100000 edges): `write_sdnf` numbers edge records 100001, 100002, ... in
input order and plate records 200001, 200002, ... in input order — the i-th
input element of each packet gets exactly the i-th id of `range'`, so ids
are contiguous with no gaps or reuse; and when the edge count is at most
100000 no edge id ever equals a plate id. -/
theorem memberId_numbering (polygons : List PolyItem) (edges : List EdgeItem)
    (h : ∀ e ∈ edges, 2 ≤ e.edge.length) :
    (writeEdges 100001 edges).out
      = concatAll (List.zipWith (fun i it => (edgeRecord i it).out)
          (List.range' 100001 edges.length) edges) ∧
    writePlates 200001 polygons
      = concatAll (List.zipWith plateRecord
          (List.range' 200001 polygons.length) polygons) ∧
    (edges.length ≤ 100000 →
      ∀ i ∈ List.range' 100001 edges.length,
        ∀ j ∈ List.range' 200001 polygons.length, i ≠ j) := by
  refine ⟨?_, writePlates_eq 200001 polygons, ?_⟩
  · rw [writeEdges_eq 100001 edges h]
  · intro hle i hi j hj
    rcases List.mem_range'.mp hi with ⟨a, ha, rfl⟩
    rcases List.mem_range'.mp hj with ⟨b, hb, rfl⟩
    omega

/-- Witness for C1 (amended) at one edge and one plate. -/
theorem memberId_numbering_witness :
    (∀ e ∈ ([sampleEdgeItem] : List EdgeItem), 2 ≤ e.edge.length) ∧
    ((writeEdges 100001 [sampleEdgeItem]).out
      = concatAll (List.zipWith (fun i it => (edgeRecord i it).out)
          (List.range' 100001 ([sampleEdgeItem] : List EdgeItem).length)
          [sampleEdgeItem]) ∧
    writePlates 200001 [samplePlateItem]
      = concatAll (List.zipWith plateRecord
          (List.range' 200001 ([samplePlateItem] : List PolyItem).length)
          [samplePlateItem]) ∧
    (([sampleEdgeItem] : List EdgeItem).length ≤ 100000 →
      ∀ i ∈ List.range' 100001 ([sampleEdgeItem] : List EdgeItem).length,
        ∀ j ∈ List.range' 200001 ([samplePlateItem] : List PolyItem).length,
          i ≠ j)) :=
  ⟨by decide, memberId_numbering [samplePlateItem] [sampleEdgeItem] (by decide)⟩

/-- Claim C6 counterexample: the thickness field of a plate record is
written as `str("%f" % thickness)`, i.e. fixed 6-decimal — thickness 0.008
is emitted as the padded text `0.008000`, not the shortest round-trip text
`0.008`. -/
theorem thickness_field_padded :
    fmt6 (8 / 1000) = "0.008000" ∧
    fracLen (fmt6 (8 / 1000)) = 6 ∧
    ("0.008000" : String) ≠ "0.008" ∧
    plateRecord 200001 samplePlateItem
      = "200001 0 0 0 \"plate\"\n\"\" \"S355\" 0.008000 3\n" ++
        "0.000000 0.000000 0.000000\n1.000000 0.000000 0.000000\n" ++
        "0.000000 1.000000 0.000000\n" := by
  refine ⟨fmt6_thickness, fracLen_fmt6 _, by decide, ?_⟩
  simp only [plateRecord, samplePlateItem, List.map_cons, List.map_nil,
    concatAll]
  rw [connect_point_zero, fmt6_thickness, vertexLine_000, vertexLine_100,
    vertexLine_010]
  decide

/-- Claim C6 (amended: the thickness field also uses fixed 6-decimal `%f`
formatting, with padding, not default shortest round-trip formatting):
every coordinate field of edge and plate records and the thickness field
are rendered by `fmt6`, which always produces exactly six digits after the
decimal point. -/
theorem numeric_field_formatting (v : Point3) (q : ℚ) (idx : Nat)
    (item : PolyItem) :
    vertexLine v = fmt6 v.x ++ " " ++ fmt6 v.y ++ " " ++ fmt6 v.z ++ "\n" ∧
    edgeVertexChunk v = fmt6 v.x ++ " " ++ fmt6 v.y ++ " " ++ fmt6 v.z ++ " " ∧
    fracLen (fmt6 q) = 6 ∧
    plateRecord idx item
      = toString idx ++ " " ++ toString (connect_point item.offset) ++
          " 0 0 \"plate\"\n" ++
        "\"\" \"S355\" " ++ fmt6 item.thickness ++ " " ++
          toString item.polygon.length ++ "\n" ++
        concatAll (item.polygon.map vertexLine) :=
  ⟨rfl, rfl, fracLen_fmt6 q, rfl⟩

set_option maxRecDepth 16000 in
/-- Claim C8 counterexample: a polygon with only 2 vertices is serialized
without any error — `write_sdnf` returns normally (`raised = false`) and the
output contains a complete Packet 20 record for the malformed polygon
(vertex count 2), i.e. the pipeline silently emits the corrupt packet
instead of failing loudly. -/
theorem short_polygon_serialized_silently :
    badPlateItem.polygon.length = 2 ∧
    (write_sdnf [badPlateItem] []).raised = false ∧
    (write_sdnf [badPlateItem] []).out
      = titlePacket ++
        "Packet 10\n\"meters\" 0\nPacket 20\n\"meters\" \"meters\" 1\n" ++
        "200001 0 0 0 \"plate\"\n\"\" \"S355\" 0.008000 2\n" ++
        "0.000000 0.000000 0.000000\n1.000000 0.000000 0.000000\n" := by
  refine ⟨by decide, by decide, ?_⟩
  have hplate : plateRecord 200001 badPlateItem
      = "200001 0 0 0 \"plate\"\n\"\" \"S355\" 0.008000 2\n" ++
        "0.000000 0.000000 0.000000\n1.000000 0.000000 0.000000\n" := by
    simp only [plateRecord, badPlateItem, List.map_cons, List.map_nil,
      concatAll]
    rw [connect_point_zero, fmt6_thickness, vertexLine_000, vertexLine_100]
    decide
  simp only [write_sdnf, writeEdges, Bool.false_eq_true, if_false,
    writePlates, hplate, List.length_nil, List.length_cons,
    String.append_assoc]
  decide

/-- Claim C8 (amended): the pipeline does not fail loudly on malformed
polygons — any polygon list, including degenerate loops with fewer than 3
vertices, is serialized without error; only an edge with fewer than 2
endpoints aborts the writer with a raised IndexError (after its first two
record lines were already written), and an edge with more than 2 endpoints
is again serialized silently. -/
theorem malformed_element_behaviour (polys : List PolyItem)
    (edges : List EdgeItem) :
    ((∀ e ∈ edges, 2 ≤ e.edge.length) →
      (write_sdnf polys edges).raised = false) ∧
    ((∃ e ∈ edges, e.edge.length < 2) →
      (write_sdnf polys edges).raised = true) := by
  constructor
  · intro h
    have h1 := writeEdges_ok_of_wf 100001 edges h
    simp [write_sdnf, h1]
  · intro h
    have h1 := writeEdges_raised_of_short 100001 edges h
    simp [write_sdnf, h1]

/-- Witness for C8 (amended): a 2-vertex polygon passes through silently,
while a 1-endpoint edge raises. -/
theorem malformed_element_behaviour_witness :
    (write_sdnf [badPlateItem] []).raised = false ∧
    (write_sdnf [] [shortEdgeItem]).raised = true :=
  ⟨(malformed_element_behaviour [badPlateItem] []).1 (by decide),
   (malformed_element_behaviour [] [shortEdgeItem]).2
     ⟨shortEdgeItem, by simp, by decide⟩⟩

/-- Claim C9: with no modifier named `"Solidify"` in the stack the
classified attributes are exactly `thickness = 0.008`, `offset = 0.0`; when
such a modifier is present (the stack holding a single such entry, as
Blender's unique modifier names guarantee), thickness and offset are read
from it. -/
theorem solidify_classification (mods : List Modifier) :
    ((∀ m ∈ mods, m.name ≠ "Solidify") →
      classifyAttrs mods = (8 / 1000, 0)) ∧
    (∀ mo ∈ mods, mo.name = "Solidify" →
      (∀ m ∈ mods, m.name = "Solidify" → m = mo) →
      classifyAttrs mods = (mo.thickness, mo.offset)) := by
  constructor
  · intro h
    exact foldl_solidify_none mods _ h
  · intro mo hmo hname huniq
    exact foldl_solidify_mem mo mods _ hmo hname huniq

/-- Witness for C9: defaults without a Solidify modifier; modifier values
with one. -/
theorem solidify_classification_witness :
    classifyAttrs [Modifier.mk "Array" 1 1] = (8 / 1000, 0) ∧
    classifyAttrs [Modifier.mk "Solidify" (5 / 1000) 1] = (5 / 1000, 1) :=
  ⟨(solidify_classification [Modifier.mk "Array" 1 1]).1
      (by intro m hm; rw [List.mem_singleton.mp hm]; decide),
   (solidify_classification [Modifier.mk "Solidify" (5 / 1000) 1]).2
      (Modifier.mk "Solidify" (5 / 1000) 1) (List.mem_singleton.mpr rfl) rfl
      (fun m hm _ => List.mem_singleton.mp hm)⟩

/-- Claim C10: `write_sdnf` is deterministic — equal polygon and edge
sequences give byte-identical output; the Title packet is the fixed literal
below (date `10/02/13`, time `16:27:18`, fixed firm/client/structure/
issue/design strings), and every edge item built by the collection loop
carries the fixed section string `UC152x152x23` (units `meters` and grade
`S355` are literals of the writer itself), so repeated exports of the same
geometry are byte-for-byte reproducible. -/
theorem export_deterministic :
    (∀ (p : List PolyItem) (e : List EdgeItem) (p2 : List PolyItem)
        (e2 : List EdgeItem), p = p2 → e = e2 →
      write_sdnf p e = write_sdnf p2 e2) ∧
    titlePacket
      = "Packet 00\n\"\"\n\"My Engineering Company\"\n\"My Client\"\n" ++
        "\"My Structure\"\n\"10/02/13\" \"16:27:18\"\n1 \"io_sdnf.py\"\n" ++
        "\"My Design Code\"\n0\n" ∧
    (∀ (gs : ℚ) (objs : List Obj) (it : EdgeItem),
      it ∈ (executeCore gs objs).2 → it.sect = "UC152x152x23") := by
  refine ⟨?_, by decide, ?_⟩
  · intro p e p2 e2 hp he
    rw [hp, he]
  · intro gs objs it hmem
    exact foldl_executeStep_sect gs objs ([], []) (by simp) it hmem

/-- Witness for C10 at a concrete input pair. -/
theorem export_deterministic_witness :
    write_sdnf [samplePlateItem] [sampleEdgeItem]
      = write_sdnf [samplePlateItem] [sampleEdgeItem] :=
  export_deterministic.1 [samplePlateItem] [sampleEdgeItem]
    [samplePlateItem] [sampleEdgeItem] rfl rfl

end SDNF
